import Mathlib

/-!
Formalization of the EventGenerator3000 serverless handler
(EventGenerator/__init__.py): the connectivity prober
(check_dynatrace_connection), the payload builder (build_payload), the
event sink client (send_event) and the request handler (main).

Modelling conventions:
  * Python dicts holding JSON-like data are `List (String × JVal)`;
    lookups use `List.lookup`.
  * Environment configuration (DT_API_URL after rstrip, DT_API_TOKEN) is a
    `Config` record; Python string/None truthiness is `pyFalsy`.
  * The outcome of an outbound HTTP call is an explicit input
    (`ProbeResult` for the GET probe, `SendNet` for the POST delivery):
    either a response status code or a raised requests exception.
  * Randomness and the clock are injected: `random.randint`/`random.choice`
    become `pyrandint`/`pychoice` driven by an arbitrary natural number,
    faithful to the guarantee that Python's versions always return a value
    in the requested interval / list.
  * The handler `main` additionally returns the ordered trace of external
    calls it performed (`Ev` events), so ordering claims can be stated.
-/

/-- A JSON-like value as stored in the Python payload dicts. -/
inductive JVal where
  | num (n : Int)
  | str (s : String)
  | bool (b : Bool)
  | obj (fields : List (String × JVal))

/-- Module-level configuration: DT_API_URL (os.getenv with default "",
then rstrip("/")) and DT_API_TOKEN (os.getenv, possibly absent). -/
structure Config where
  dtApiUrl : String
  dtApiToken : Option String
deriving DecidableEq

/-- Python falsiness of an optional string: None and "" are falsy. -/
def pyFalsy : Option String → Bool
  | none => true
  | some s => s == ""

/-- The guard `not DT_API_URL or not DT_API_TOKEN` from line 86. -/
def configMissing (cfg : Config) : Bool :=
  (cfg.dtApiUrl == "") || pyFalsy cfg.dtApiToken

/-- Outcome of the probe GET request issued by the prober: either a
response with a status code, or one of the requests exceptions
(Timeout and ConnectionError are subclasses of RequestException). -/
inductive ProbeResult where
  | status (code : Nat)
  | timeout
  | connectionError
  | otherRequestException (text : String)
deriving DecidableEq

/-- Message returned when DT_API_URL / DT_API_TOKEN are not configured. -/
def configMissingMsg : String :=
  "Error: Las variables de entorno para la API de Eventos (DT_API_URL, DT_API_TOKEN) no están configuradas."

/-- check_dynatrace_connection (lines 85-97). Returns the
(isReachable, diagnosticMessage) pair together with the number of
outbound HTTP requests it performed (0 on the missing-config early
return, 1 otherwise). The single `except RequestException` clause
catches every exception constructor of `ProbeResult`. -/
def check_dynatrace_connection (cfg : Config) (net : ProbeResult) :
    (Bool × String) × Nat :=
  if configMissing cfg then
    ((false, configMissingMsg), 0)
  else
    match net with
    | ProbeResult.status c =>
        if c = 405 then
          ((true, "API de Eventos: Conexión y autenticación verificadas."), 1)
        else if c = 401 then
          ((false, "API de Eventos: Error de autenticación (401)."), 1)
        else
          ((false, "API de Eventos: Respuesta inesperada " ++ toString c ++ "."), 1)
    | _ =>
        ((false, "API de Eventos: Error de conexión a " ++ cfg.dtApiUrl ++ "."), 1)

/-- random.randint(lo, hi): a value in [lo, hi], both ends included,
driven by an arbitrary natural number. -/
def pyrandint (lo hi r : Nat) : Nat :=
  lo + r % (hi + 1 - lo)

/-- random.choice(l): an element of the non-empty list l, driven by an
arbitrary natural number. -/
def pychoice {α : Type} [Inhabited α] (l : List α) (r : Nat) : α :=
  l.getD (r % l.length) default

/-- build_payload (lines 99-118). The timestamp ts and the random draw r
are injected; every branch merges the common dict
(timestamp, source, detect=False) last, as the Python dict literal does. -/
def build_payload (evt_code : String) (ts : Nat) (r : Nat) :
    Option (List (String × JVal)) :=
  let common : List (String × JVal) :=
    [("timestamp", JVal.num ts),
     ("source", JVal.str "EventGenerator3000"),
     ("detect", JVal.bool false)]
  if evt_code = "resource" then
    some ([("eventType", JVal.str "RESOURCE_EVENT"),
           ("entitySelector", JVal.str "type(HOST),entityName(\"host123\")"),
           ("property", JVal.str "CPU_USAGE"),
           ("value", JVal.num (pyrandint 1 100 r))] ++ common)
  else if evt_code = "trace" then
    some ([("eventType", JVal.str "STATE_EVENT"),
           ("entitySelector", JVal.str "type(SERVICE),entityName(\"ServiceXYZ\")"),
           ("state", JVal.str "TRACE_SPAN"),
           ("annotationType", JVal.str "TRACE")] ++ common)
  else if evt_code = "http" then
    let status : Int := pychoice [200, 400, 500] r
    some ([("eventType", JVal.str "CUSTOM_ANNOTATION"),
           ("annotationType", JVal.str "HTTP_CALL"),
           ("annotationDescription",
             JVal.str ("HTTP " ++ toString status ++ " GET https://example.com/api")),
           ("customProperties",
             JVal.obj [("statusCode", JVal.num status), ("method", JVal.str "GET")])] ++ common)
  else if evt_code = "db" then
    let st : String := pychoice ["SUCCESS", "FAILURE"] r
    some ([("eventType", JVal.str "CUSTOM_ANNOTATION"),
           ("annotationType", JVal.str "DB_CALL"),
           ("annotationDescription", JVal.str ("Simulated DB call: status " ++ st)),
           ("customProperties",
             JVal.obj [("database", JVal.str "MySQL"), ("status", JVal.str st)])] ++ common)
  else if evt_code = "azure" then
    let st : String := pychoice ["OK", "ERROR"] r
    some ([("eventType", JVal.str "CUSTOM_ANNOTATION"),
           ("annotationType", JVal.str "AZURE_SERVICE"),
           ("annotationDescription", JVal.str ("Simulated Azure BlobStorage call: " ++ st)),
           ("customProperties",
             JVal.obj [("service", JVal.str "BlobStorage"), ("status", JVal.str st)])] ++ common)
  else if evt_code = "error" then
    some ([("eventType", JVal.str "CUSTOM_ANNOTATION"),
           ("annotationType", JVal.str "ERROR"),
           ("annotationDescription", JVal.str "Simulated exception occurred")] ++ common)
  else if evt_code = "warning" then
    some ([("eventType", JVal.str "CUSTOM_ANNOTATION"),
           ("annotationType", JVal.str "WARNING"),
           ("annotationDescription", JVal.str "Simulated warning")] ++ common)
  else
    none

/-- Outcome of the delivery POST issued by send_event: a response with a
status code, or a raised RequestException carrying its message. -/
inductive SendNet where
  | status (code : Nat)
  | requestException (text : String)
deriving DecidableEq

/-- The try block of send_event (lines 124-127): requests.post may raise;
resp.raise_for_status() raises HTTPError (a RequestException) for status
codes in [400, 600); otherwise the block returns status == 200. -/
def send_event_try (net : SendNet) : Except String Bool :=
  match net with
  | SendNet.requestException e => Except.error e
  | SendNet.status c =>
      if 400 ≤ c ∧ c < 600 then Except.error ("HTTPError " ++ toString c)
      else Except.ok (c == 200)

/-- send_event (lines 121-130): the except clause turns every
RequestException into False; otherwise the try block's value is returned. -/
def send_event (net : SendNet) : Bool :=
  match send_event_try net with
  | Except.ok b => b
  | Except.error _ => false

/-- Python str.startswith, phrased as a structural prefix test on the
character lists of the two strings. -/
def pyStartsWith (s pre : String) : Bool :=
  pre.data.isPrefixOf s.data

/-- External calls the handler can perform, in the order they happen. -/
inductive Ev where
  | probe
  | build (code : String)
  | send
  | genOtelTrace
  | genOtelMetric
  | genSdkTrace
deriving DecidableEq

/-- The arguments main hands to render_page together with the HTTP status
code of the func.HttpResponse: the per-request DispatchOutcome. -/
structure HandlerResult where
  statusCode : Nat
  severity : Option String
  message : Option String
  payloadShown : Option (List (String × JVal))
  selected : Option String

/-- All the inputs one invocation of main depends on: the configuration,
the outcomes of the two outbound calls, the injected clock and random
draw, and whether the OTel / OneAgent SDK generator raises. -/
structure Env where
  cfg : Config
  probeNet : ProbeResult
  sendNet : SendNet
  ts : Nat
  rng : Nat
  genExn : Option String

/-- The outer except clause (lines 238-243): render with the exception
text, severity "error" and HTTP status 500; selected and payload are the
render_page defaults (None). -/
def exceptionRender (e : String) : HandlerResult :=
  { statusCode := 500, severity := some "error",
    message := some ("Ha ocurrido una excepción: " ++ e),
    payloadShown := none, selected := none }

/-- The initial page load (line 236): HttpResponse with default status
200; render_page receives only the connection status. -/
def initialRender : HandlerResult :=
  { statusCode := 200, severity := none, message := none,
    payloadShown := none, selected := none }

/-- main (lines 187-243), paired with the trace of external calls it
makes. check_dynatrace_connection runs first on every request (line 189),
then the try block branches on the type query parameter: otel_ / sdk_
prefixes run the SDK generators (whose exceptions reach the outer except
clause), every other non-empty value goes through the Events-API branch
guarded by the connection status. An empty or absent parameter is falsy
in Python, so it takes the initial-render branch. -/
def handler_main (env : Env) (evtParam : Option String) : HandlerResult × List Ev :=
  let conn := (check_dynatrace_connection env.cfg env.probeNet).1
  match evtParam with
  | none => (initialRender, [Ev.probe])
  | some evt =>
    if evt = "" then (initialRender, [Ev.probe])
    else if pyStartsWith evt "otel_" then
      if evt = "otel_trace" then
        match env.genExn with
        | some e => (exceptionRender e, [Ev.probe, Ev.genOtelTrace])
        | none =>
          ({ statusCode := 200, severity := some "success",
             message := some "Traza OpenTelemetry generada con éxito. Revisa tu entorno de Dynatrace.",
             payloadShown := none, selected := some evt },
           [Ev.probe, Ev.genOtelTrace])
      else if evt = "otel_metric" then
        match env.genExn with
        | some e => (exceptionRender e, [Ev.probe, Ev.genOtelMetric])
        | none =>
          ({ statusCode := 200, severity := some "success",
             message := some "Métrica OpenTelemetry generada con éxito. Revisa tu entorno de Dynatrace.",
             payloadShown := none, selected := some evt },
           [Ev.probe, Ev.genOtelMetric])
      else
        ({ statusCode := 200, severity := some "success", message := some "",
           payloadShown := none, selected := some evt }, [Ev.probe])
    else if pyStartsWith evt "sdk_" then
      if evt = "sdk_trace" then
        match env.genExn with
        | some e => (exceptionRender e, [Ev.probe, Ev.genSdkTrace])
        | none =>
          ({ statusCode := 200, severity := some "success",
             message := some "Traza de OneAgent SDK generada con éxito. Funcionará si un OneAgent está activo en el host.",
             payloadShown := none, selected := some evt },
           [Ev.probe, Ev.genSdkTrace])
      else
        ({ statusCode := 200, severity := some "success", message := some "",
           payloadShown := none, selected := some evt }, [Ev.probe])
    else if conn.1 = false then
      ({ statusCode := 500, severity := some "error",
         message := some "No se puede generar el evento de API porque no hay conexión con Dynatrace.",
         payloadShown := none, selected := some evt }, [Ev.probe])
    else
      match build_payload evt env.ts env.rng with
      | some p =>
        if send_event env.sendNet then
          ({ statusCode := 200, severity := some "success",
             message := some "¡Evento de API enviado con éxito!",
             payloadShown := some p, selected := some evt },
           [Ev.probe, Ev.build evt, Ev.send])
        else
          ({ statusCode := 500, severity := some "error",
             message := some "Error al enviar el evento de API.",
             payloadShown := some p, selected := some evt },
           [Ev.probe, Ev.build evt, Ev.send])
      | none =>
          ({ statusCode := 500, severity := some "error",
             message := some "Error al enviar el evento de API.",
             payloadShown := none, selected := some evt },
           [Ev.probe, Ev.build evt])

/-- A fully configured Config used by concrete witnesses. -/
def okCfg : Config := { dtApiUrl := "https://dt.example.com", dtApiToken := some "tok" }

/-- An unconfigured Config: both variables unset. -/
def noCfg : Config := { dtApiUrl := "", dtApiToken := none }

/-- Environment whose probe finds the sink reachable (status 405) and
whose delivery succeeds. -/
def envConnected : Env :=
  { cfg := okCfg, probeNet := ProbeResult.status 405,
    sendNet := SendNet.status 200, ts := 0, rng := 0, genExn := none }

/-- Environment with missing configuration: the probe reports not
reachable without any network call. -/
def envDisconnected : Env :=
  { cfg := noCfg, probeNet := ProbeResult.timeout,
    sendNet := SendNet.requestException "timed out", ts := 0, rng := 0, genExn := none }

/-- Is this probe outcome a raised exception (rather than a response)? -/
def probeIsExn : ProbeResult → Bool
  | ProbeResult.status _ => false
  | _ => true

/-- C4: for every delivery attempt, send_event returns true exactly when
the response status code is 200; every other status (raise_for_status
turns 4xx/5xx into a caught HTTPError, and non-200 codes below 400 fail
the final comparison) and every raised RequestException yield false, the
function being total so no exception reaches the caller. -/
theorem send_event_success_iff (net : SendNet) :
    send_event net = true ↔ net = SendNet.status 200 := by
  cases net with
  | requestException e => simp [send_event, send_event_try]
  | status c =>
      by_cases h : 400 ≤ c ∧ c < 600
      · simp [send_event, send_event_try, h]
        omega
      · simp [send_event, send_event_try, h]

/-- C8: with DT_API_URL empty or DT_API_TOKEN unset/empty, the prober
returns not reachable with the message naming the missing configuration,
performs zero network requests, and its result does not depend on the
network at all. -/
theorem check_missing_config_no_call (cfg : Config) (net : ProbeResult)
    (h : configMissing cfg = true) :
    check_dynatrace_connection cfg net = ((false, configMissingMsg), 0) := by
  simp [check_dynatrace_connection, h]

/-- Witness for C8: the unconfigured Config with a concrete probe outcome. -/
theorem check_missing_config_no_call_witness :
    configMissing noCfg = true ∧
    check_dynatrace_connection noCfg (ProbeResult.status 405) =
      ((false, configMissingMsg), 0) :=
  ⟨rfl, check_missing_config_no_call noCfg (ProbeResult.status 405) rfl⟩

/-- C1 counterexample: the prober has no dedicated branches for 403 or
404; both fall through to the generic unexpected-response message, so
they do not yield the insufficient-permission / wrong-URL diagnostics the
claim describes. -/
theorem check_403_404_generic_message :
    (check_dynatrace_connection okCfg (ProbeResult.status 403)).1 =
      (false, "API de Eventos: Respuesta inesperada 403.") ∧
    (check_dynatrace_connection okCfg (ProbeResult.status 404)).1 =
      (false, "API de Eventos: Respuesta inesperada 404.") :=
  ⟨rfl, rfl⟩

/-- C1 amended: with the configuration present, a 405 response yields
reachable with the verified message, a 401 yields not reachable with the
bad-token message, and every other status code (403 and 404 included)
yields not reachable with the unexpected-response message carrying the
numeric code. -/
theorem check_status_code_mapping (cfg : Config) (c : Nat)
    (h : configMissing cfg = false) :
    (check_dynatrace_connection cfg (ProbeResult.status c)).1 =
      (if c = 405 then
        (true, "API de Eventos: Conexión y autenticación verificadas.")
       else if c = 401 then
        (false, "API de Eventos: Error de autenticación (401).")
       else
        (false, "API de Eventos: Respuesta inesperada " ++ toString c ++ ".")) := by
  by_cases h5 : c = 405 <;> by_cases h1 : c = 401 <;>
    simp [check_dynatrace_connection, h, h5, h1]

/-- Witness for the amended C1 at status code 403. -/
theorem check_status_code_mapping_witness :
    configMissing okCfg = false ∧
    (check_dynatrace_connection okCfg (ProbeResult.status 403)).1 =
      (false, "API de Eventos: Respuesta inesperada 403.") :=
  ⟨rfl, check_status_code_mapping okCfg 403 rfl⟩

/-- C5 counterexample: a timeout and a connection error produce the very
same diagnostic, and an arbitrary other request exception produces that
same connection-error message too — its text does not include the
exception text XYZZY, contradicting the three distinct messages the claim
describes. -/
theorem check_timeout_message_not_specific :
    ((check_dynatrace_connection okCfg ProbeResult.timeout).1).2 =
      ((check_dynatrace_connection okCfg ProbeResult.connectionError).1).2 ∧
    ((check_dynatrace_connection okCfg
        (ProbeResult.otherRequestException "XYZZY")).1).2 =
      "API de Eventos: Error de conexión a https://dt.example.com." :=
  ⟨rfl, rfl⟩

/-- C5 amended: every probe failure (timeout, connection error, or any
other RequestException) is caught by the single except clause and yields
not reachable with the one connection-error message naming the URL; no
exception escapes the prober. -/
theorem check_exception_single_message (cfg : Config) (net : ProbeResult)
    (hc : configMissing cfg = false) (he : probeIsExn net = true) :
    (check_dynatrace_connection cfg net).1 =
      (false, "API de Eventos: Error de conexión a " ++ cfg.dtApiUrl ++ ".") := by
  cases net <;> simp_all [check_dynatrace_connection, probeIsExn]

/-- Witness for the amended C5 at a concrete timeout. -/
theorem check_exception_single_message_witness :
    configMissing okCfg = false ∧ probeIsExn ProbeResult.timeout = true ∧
    (check_dynatrace_connection okCfg ProbeResult.timeout).1 =
      (false, "API de Eventos: Error de conexión a https://dt.example.com.") :=
  ⟨rfl, rfl, check_exception_single_message okCfg ProbeResult.timeout rfl rfl⟩

/-- The common fields every built payload carries. -/
def hasCommonFields (p : List (String × JVal)) (ts : Nat) : Prop :=
  p.lookup "timestamp" = some (JVal.num ts) ∧
  p.lookup "source" = some (JVal.str "EventGenerator3000") ∧
  p.lookup "detect" = some (JVal.bool false)

/-- A builder result that is present, has the stated eventType and
annotationType (none when the payload has no such key) and the common
fields. -/
def typedPayload (res : Option (List (String × JVal))) (ts : Nat)
    (et : String) (ann : Option String) : Prop :=
  ∃ p, res = some p ∧
    p.lookup "eventType" = some (JVal.str et) ∧
    p.lookup "annotationType" = Option.map JVal.str ann ∧
    hasCommonFields p ts

/-- C6: for each of the seven Events-API codes the builder returns a
payload whose eventType / annotationType match the table of the spec and
which carries the common fields timestamp, source and detect=false; for
any code outside that set it returns none. -/
theorem build_payload_type_table (ts r : Nat) (evt : String)
    (h : evt ∉ ["resource", "trace", "http", "db", "azure", "error", "warning"]) :
    typedPayload (build_payload "resource" ts r) ts "RESOURCE_EVENT" none ∧
    typedPayload (build_payload "trace" ts r) ts "STATE_EVENT" (some "TRACE") ∧
    typedPayload (build_payload "http" ts r) ts "CUSTOM_ANNOTATION" (some "HTTP_CALL") ∧
    typedPayload (build_payload "db" ts r) ts "CUSTOM_ANNOTATION" (some "DB_CALL") ∧
    typedPayload (build_payload "azure" ts r) ts "CUSTOM_ANNOTATION" (some "AZURE_SERVICE") ∧
    typedPayload (build_payload "error" ts r) ts "CUSTOM_ANNOTATION" (some "ERROR") ∧
    typedPayload (build_payload "warning" ts r) ts "CUSTOM_ANNOTATION" (some "WARNING") ∧
    build_payload evt ts r = none := by
  simp only [List.mem_cons, List.not_mem_nil, or_false, not_or] at h
  obtain ⟨n1, n2, n3, n4, n5, n6, n7⟩ := h
  refine ⟨⟨_, rfl, rfl, rfl, rfl, rfl, rfl⟩, ⟨_, rfl, rfl, rfl, rfl, rfl, rfl⟩,
          ⟨_, rfl, rfl, rfl, rfl, rfl, rfl⟩, ⟨_, rfl, rfl, rfl, rfl, rfl, rfl⟩,
          ⟨_, rfl, rfl, rfl, rfl, rfl, rfl⟩, ⟨_, rfl, rfl, rfl, rfl, rfl, rfl⟩,
          ⟨_, rfl, rfl, rfl, rfl, rfl, rfl⟩, ?_⟩
  simp [build_payload, n1, n2, n3, n4, n5, n6, n7]

/-- Witness for C6 at a concrete unrecognized code and the warning code. -/
theorem build_payload_type_table_witness :
    typedPayload (build_payload "warning" 0 0) 0 "CUSTOM_ANNOTATION" (some "WARNING") ∧
    build_payload "bogus" 0 0 = none :=
  ⟨(build_payload_type_table 0 0 "bogus" (by decide)).2.2.2.2.2.2.1,
   (build_payload_type_table 0 0 "bogus" (by decide)).2.2.2.2.2.2.2⟩

/-- pychoice on a three-element list always yields one of its elements. -/
theorem pychoice_mem_three {α : Type} [Inhabited α] (a b c : α) (r : Nat) :
    pychoice [a, b, c] r = a ∨ pychoice [a, b, c] r = b ∨ pychoice [a, b, c] r = c := by
  have h : r % 3 = 0 ∨ r % 3 = 1 ∨ r % 3 = 2 := by omega
  rcases h with h | h | h <;> simp [pychoice, h]

/-- pychoice on a two-element list always yields one of its elements. -/
theorem pychoice_mem_two {α : Type} [Inhabited α] (a b : α) (r : Nat) :
    pychoice [a, b] r = a ∨ pychoice [a, b] r = b := by
  have h : r % 2 = 0 ∨ r % 2 = 1 := by omega
  rcases h with h | h <;> simp [pychoice, h]

/-- C7: for every injected random draw, the http payload's
customProperties.statusCode is one of 200, 400, 500; the db payload's
customProperties.status is SUCCESS or FAILURE; the azure payload's
customProperties.status is OK or ERROR; and the resource payload's value
lies in the closed interval from 1 to 100. -/
theorem build_payload_random_ranges (ts r : Nat) :
    (∃ p cp s, build_payload "http" ts r = some p ∧
        p.lookup "customProperties" = some (JVal.obj cp) ∧
        cp.lookup "statusCode" = some (JVal.num s) ∧
        (s = 200 ∨ s = 400 ∨ s = 500)) ∧
    (∃ p cp st, build_payload "db" ts r = some p ∧
        p.lookup "customProperties" = some (JVal.obj cp) ∧
        cp.lookup "status" = some (JVal.str st) ∧
        (st = "SUCCESS" ∨ st = "FAILURE")) ∧
    (∃ p cp st, build_payload "azure" ts r = some p ∧
        p.lookup "customProperties" = some (JVal.obj cp) ∧
        cp.lookup "status" = some (JVal.str st) ∧
        (st = "OK" ∨ st = "ERROR")) ∧
    (∃ p v, build_payload "resource" ts r = some p ∧
        p.lookup "value" = some (JVal.num v) ∧ 1 ≤ v ∧ v ≤ 100) := by
  refine ⟨⟨_, _, _, rfl, rfl, rfl, pychoice_mem_three 200 400 500 r⟩,
          ⟨_, _, _, rfl, rfl, rfl, pychoice_mem_two "SUCCESS" "FAILURE" r⟩,
          ⟨_, _, _, rfl, rfl, rfl, pychoice_mem_two "OK" "ERROR" r⟩,
          ⟨_, _, rfl, rfl, ?_, ?_⟩⟩
  · simp only [pyrandint]
    omega
  · simp only [pyrandint]
    omega

/-- C2 counterexample: otel_trace is one of the ten catalog codes, yet
with the probe reporting not connected the handler runs the OTel branch
and answers 200 with severity success instead of the blocked 500 error. -/
theorem otel_bypasses_connection_check :
    ((check_dynatrace_connection envDisconnected.cfg envDisconnected.probeNet).1).1 = false ∧
    (handler_main envDisconnected (some "otel_trace")).1.statusCode = 200 ∧
    (handler_main envDisconnected (some "otel_trace")).1.severity = some "success" :=
  ⟨rfl, rfl, rfl⟩

/-- C2 amended: for every selected type that is neither empty nor an
otel_ / sdk_ prefixed code (in particular the seven Events-API codes),
a probe result of not connected makes the handler answer 500 with
severity error and the no-connection message, showing no payload and
never calling the builder. -/
theorem blocked_render_when_not_connected (env : Env) (evt : String)
    (h0 : evt ≠ "")
    (h1 : pyStartsWith evt "otel_" = false)
    (h2 : pyStartsWith evt "sdk_" = false)
    (h3 : ((check_dynatrace_connection env.cfg env.probeNet).1).1 = false) :
    (handler_main env (some evt)).1.statusCode = 500 ∧
    (handler_main env (some evt)).1.severity = some "error" ∧
    (handler_main env (some evt)).1.message =
      some "No se puede generar el evento de API porque no hay conexión con Dynatrace." ∧
    (handler_main env (some evt)).1.payloadShown = none ∧
    ∀ c, Ev.build c ∉ (handler_main env (some evt)).2 := by
  simp [handler_main, h0, h1, h2, h3]

/-- Witness for the amended C2: missing configuration and type resource. -/
theorem blocked_render_when_not_connected_witness :
    (handler_main envDisconnected (some "resource")).1.statusCode = 500 ∧
    (handler_main envDisconnected (some "resource")).1.severity = some "error" ∧
    (handler_main envDisconnected (some "resource")).1.message =
      some "No se puede generar el evento de API porque no hay conexión con Dynatrace." ∧
    (handler_main envDisconnected (some "resource")).1.payloadShown = none ∧
    ∀ c, Ev.build c ∉ (handler_main envDisconnected (some "resource")).2 :=
  blocked_render_when_not_connected envDisconnected "resource"
    (by decide) (by decide) (by decide) rfl

/-- C3 counterexample: otel_bogus is outside the recognized set (the
builder would return none for it) and the sink is reachable, yet the
handler answers 200 with severity success because the otel_ prefix routes
it to the OTel branch where the unknown suffix silently does nothing. -/
theorem unknown_otel_code_success_render :
    build_payload "otel_bogus" envConnected.ts envConnected.rng = none ∧
    ((check_dynatrace_connection envConnected.cfg envConnected.probeNet).1).1 = true ∧
    (handler_main envConnected (some "otel_bogus")).1.statusCode = 200 ∧
    (handler_main envConnected (some "otel_bogus")).1.severity = some "success" :=
  ⟨rfl, rfl, rfl, rfl⟩

/-- C3 amended: for every unrecognized code that is not otel_ / sdk_
prefixed, with the sink reachable, the builder returns none and the
handler answers 500 with severity error, no payload shown and the same
delivery-error message a failed send produces. -/
theorem unknown_code_error_render (env : Env) (evt : String)
    (h0 : evt ≠ "")
    (h1 : pyStartsWith evt "otel_" = false)
    (h2 : pyStartsWith evt "sdk_" = false)
    (h3 : ((check_dynatrace_connection env.cfg env.probeNet).1).1 = true)
    (h4 : build_payload evt env.ts env.rng = none) :
    (handler_main env (some evt)).1.statusCode = 500 ∧
    (handler_main env (some evt)).1.severity = some "error" ∧
    (handler_main env (some evt)).1.payloadShown = none ∧
    (handler_main env (some evt)).1.message = some "Error al enviar el evento de API." := by
  simp [handler_main, h0, h1, h2, h3, h4]

/-- Witness for the amended C3: a connected environment and type bogus. -/
theorem unknown_code_error_render_witness :
    (handler_main envConnected (some "bogus")).1.statusCode = 500 ∧
    (handler_main envConnected (some "bogus")).1.severity = some "error" ∧
    (handler_main envConnected (some "bogus")).1.payloadShown = none ∧
    (handler_main envConnected (some "bogus")).1.message =
      some "Error al enviar el evento de API." :=
  unknown_code_error_render envConnected "bogus"
    (by decide) (by decide) (by decide) rfl rfl

/-- Every branch of the handler emits the probe event first and never
emits it again. -/
theorem handler_main_trace_head (env : Env) (evtParam : Option String) :
    ∃ tl, (handler_main env evtParam).2 = Ev.probe :: tl ∧ Ev.probe ∉ tl := by
  rcases evtParam with _ | evt <;> simp only [handler_main]
  · exact ⟨[], rfl, by simp⟩
  · repeat' split
    all_goals exact ⟨_, rfl, by simp⟩

/-- C9: on every request the handler records exactly one probe, the
trace starts with it, and every payload-build event in the trace is
strictly after a probe event. -/
theorem probe_once_before_build (env : Env) (evtParam : Option String) :
    ((handler_main env evtParam).2).count Ev.probe = 1 ∧
    (∃ tl, (handler_main env evtParam).2 = Ev.probe :: tl) ∧
    ∀ l1 l2 c, (handler_main env evtParam).2 = l1 ++ Ev.build c :: l2 →
      Ev.probe ∈ l1 := by
  obtain ⟨tl, heq, hnot⟩ := handler_main_trace_head env evtParam
  refine ⟨?_, ⟨tl, heq⟩, ?_⟩
  · rw [heq, List.count_cons_self, List.count_eq_zero.mpr hnot]
  · intro l1 l2 c hsplit
    rw [heq] at hsplit
    cases l1 with
    | nil =>
        simp only [List.nil_append] at hsplit
        exact absurd (List.head_eq_of_cons_eq hsplit) (by simp)
    | cons a l1tail =>
        simp only [List.cons_append] at hsplit
        have ha : Ev.probe = a := List.head_eq_of_cons_eq hsplit
        rw [← ha]
        exact List.mem_cons_self _ _

/-- Witness for C9: the third conjunct applied to the concrete trace of
a successful warning delivery. -/
theorem probe_once_before_build_witness :
    Ev.probe ∈ [Ev.probe] :=
  (probe_once_before_build envConnected (some "warning")).2.2
    [Ev.probe] [Ev.send] "warning" rfl

/-- C10: on every request (initial render, OTel / SDK branches,
Events-API branch and the outer exception path alike) the HTTP status is
500 exactly when the severity handed to the renderer is error, and is
200 in every other case. -/
theorem status_500_iff_error (env : Env) (evtParam : Option String) :
    ((handler_main env evtParam).1.statusCode = 500 ↔
      (handler_main env evtParam).1.severity = some "error") ∧
    ((handler_main env evtParam).1.statusCode = 500 ∨
      (handler_main env evtParam).1.statusCode = 200) := by
  rcases evtParam with _ | evt <;> simp only [handler_main]
  · simp [initialRender]
  · repeat' split
    all_goals simp [exceptionRender, initialRender]
